import Mathlib

/-!
Verification of `src/trial.py` (GenAI SOW Architect, a Streamlit app).

The development shallowly embeds the three pieces of the program that the
claims are about:

* the bounded-retry HTTP wrappers `call_gemini_json` (lines 69-97) and
  `call_gemini_text` (lines 99-119): a `for i in range(5)` loop that posts a
  request, returns the parsed payload on HTTP status 200, and otherwise
  sleeps `2 ** i` seconds and retries, falling through to a fixed error
  value after the loop;
* the text sanitiser `clean_text` (lines 58-66): a sequence of
  `str.replace` calls followed by `encode('latin-1', 'replace')`, which
  turns every character above U+00FF into `?`;
* the PDF assembler `create_pdf` (lines 505-610), modelled as the sequence
  of FPDF drawing calls it issues (cells, multi-cells, chapter titles,
  font changes, line breaks), with Python strings embedded as `List Char`.

The network is modelled as an environment `Nat → HttpEvent α` giving the
outcome of attempt `i`: either a response with a status code and (for
status 200) the result of parsing its body — `none` when `response.json()`
or `json.loads` would raise — or `HttpEvent.exn` for a raised exception
(connection error, timeout).  Sleeping is recorded, not performed.
-/

/-- Outcome of one network attempt, as seen by the `try`/`except` body of
the retry loops in `trial.py`.  `response code body`: `requests.post`
returned a response with status `code`; `body` is the successfully parsed
payload (`some v`) or `none` when extracting/parsing it would raise.
`exn`: `requests.post` itself raised. -/
inductive HttpEvent (α : Type) where
  | response (code : Nat) (body : Option α)
  | exn
deriving DecidableEq

/-- Result of running a retry loop: the returned value, how many network
attempts were made, and the list of back-off delays slept, in order. -/
structure RunResult (α : Type) where
  result : α
  attempts : Nat
  sleeps : List Nat
deriving DecidableEq

/-- The shared `for i in range(5)` retry loop of `call_gemini_json`
(trial.py lines 85-97) and `call_gemini_text` (lines 109-119), run over the
list of remaining loop indices.  On status 200 with a parsed body the value
is returned at once; on any other status, or any exception, the loop sleeps
`2 ^ i` and moves to the next index; falling off the list yields `none`
(the callers then substitute their own fallback). -/
def retryAux {α : Type} (env : Nat → HttpEvent α) : List Nat → RunResult (Option α)
  | [] => ⟨none, 0, []⟩
  | i :: rest =>
    match env i with
    | HttpEvent.response code body =>
      if code = 200 then
        match body with
        | some v => ⟨some v, 1, []⟩
        | none =>
          ⟨(retryAux env rest).result, (retryAux env rest).attempts + 1,
            2 ^ i :: (retryAux env rest).sleeps⟩
      else
        ⟨(retryAux env rest).result, (retryAux env rest).attempts + 1,
          2 ^ i :: (retryAux env rest).sleeps⟩
    | HttpEvent.exn =>
      ⟨(retryAux env rest).result, (retryAux env rest).attempts + 1,
        2 ^ i :: (retryAux env rest).sleeps⟩

/-- Attempt `i` succeeds: status 200 and the body parsed. -/
def isSuccess {α : Type} : HttpEvent α → Bool
  | HttpEvent.response code body => code == 200 && body.isSome
  | HttpEvent.exn => false

/-- `call_gemini_json` (trial.py lines 69-97): five attempts, returning the
parsed JSON on success and `None` after exhausting the loop. -/
def call_gemini_json {α : Type} (env : Nat → HttpEvent α) : RunResult (Option α) :=
  retryAux env (List.range 5)

/-- The fallback string returned by `call_gemini_text` (trial.py line 119). -/
def busyMessage : String := "AI model busy. Please try clicking the button again."

/-- `call_gemini_text` (trial.py lines 99-119): five attempts, returning the
extracted text on success and the busy message after exhausting the loop. -/
def call_gemini_text (env : Nat → HttpEvent String) : RunResult String :=
  ⟨(retryAux env (List.range 5)).result.getD busyMessage,
    (retryAux env (List.range 5)).attempts,
    (retryAux env (List.range 5)).sleeps⟩

/-!  ## `clean_text` (trial.py lines 58-66)

Python strings are embedded as `List Char` (Unicode code points).
`str.replace` replaces non-overlapping occurrences left to right; it is
embedded with an explicit fuel argument (one unit per character consumed)
to keep the recursion structural. -/

/-- One step of Python `text.replace(pat, rep)` with fuel; `pyReplace`
below supplies fuel `l.length`, which is enough because each step consumes
at least one character of the list.  (All patterns in `trial.py` are
non-empty.) -/
def pyReplaceAux (pat rep : List Char) : Nat → List Char → List Char
  | _, [] => []
  | 0, l => l
  | fuel + 1, c :: rest =>
    if pat.isPrefixOf (c :: rest) then
      rep ++ pyReplaceAux pat rep fuel (List.drop (pat.length - 1) rest)
    else
      c :: pyReplaceAux pat rep fuel rest

/-- Python `text.replace(pat, rep)` on code-point lists. -/
def pyReplace (pat rep l : List Char) : List Char :=
  pyReplaceAux pat rep l.length l

/-- The `replacements` dict of `clean_text`, in insertion order.  The last
two keys are the three-character mojibake sequences that the source file
holds for the bullet characters (the file stores U+201A U+00F3 U+00E8 and
U+201A U+00C4 U+00A2). -/
def replacements : List (List Char × List Char) :=
  [([Char.ofNat 0x2013], [Char.ofNat 0x2d]),
   ([Char.ofNat 0x2014], [Char.ofNat 0x2d]),
   ([Char.ofNat 0x2018], [Char.ofNat 0x27]),
   ([Char.ofNat 0x2019], [Char.ofNat 0x27]),
   ([Char.ofNat 0x201c], [Char.ofNat 0x22]),
   ([Char.ofNat 0x201d], [Char.ofNat 0x22]),
   ([Char.ofNat 0x201a, Char.ofNat 0xf3, Char.ofNat 0xe8], [Char.ofNat 0x2d]),
   ([Char.ofNat 0x201a, Char.ofNat 0xc4, Char.ofNat 0xa2], [Char.ofNat 0x2d])]

/-- `text.encode('latin-1', 'replace').decode('latin-1')`: every character
above U+00FF becomes `?` (U+003F); characters at or below U+00FF survive. -/
def latin1Clamp (l : List Char) : List Char :=
  l.map (fun c => if c.toNat ≤ 255 then c else Char.ofNat 0x3f)

/-- `clean_text` (trial.py lines 58-66): run the replacement table in
insertion order, then round-trip through latin-1 with `replace`. -/
def clean_text (t : List Char) : List Char :=
  latin1Clamp (replacements.foldl (fun acc kv => pyReplace kv.1 kv.2 acc) t)

/-!  ## `create_pdf` (trial.py lines 505-610)

The PDF is modelled as the list of FPDF drawing calls that `create_pdf`
issues, in order.  `chapter_title` is the `PDF.chapter_title` helper
(trial.py lines 47-51); `cell w h txt border ln` and `multi_cell w h txt`
are `pdf.cell` / `pdf.multi_cell` with the arguments the source passes
(`ln` defaults to 0 in FPDF); `line_break` is `pdf.ln`. -/

inductive PdfOp where
  | add_page
  | chapter_title (title : List Char)
  | set_font (family style : List Char) (size : Nat)
  | cell (w h : Nat) (txt : List Char) (border ln : Nat)
  | multi_cell (w h : Nat) (txt : List Char)
  | line_break (n : Nat)
deriving DecidableEq

/-- One stakeholder entry of `updated_stakeholders` (trial.py line 398). -/
structure Stakeholder where
  role : List Char
  name : List Char
  title : List Char
  email : List Char
deriving DecidableEq

/-- One row of `final_timeline` (trial.py line 492). -/
structure TimelineRow where
  phase : List Char
  task : List Char
  weeks : List Char
deriving DecidableEq

/-- The widget values `create_pdf` closes over (trial.py lines 375-499). -/
structure SowInputs where
  final_objective : List Char
  updated_stakeholders : List Stakeholder
  deps_text : List Char
  assump_text : List Char
  final_sc_text : List Char
  p1 : List Char
  p2 : List Char
  p3 : List Char
  p4 : List Char
  final_timeline : List TimelineRow
  compute : List Char
  storage : List (List Char)
  ml_services : List (List Char)
  ui_layer : List Char
  ownership : List Char
  n_users : Int
  n_reqs : Int

/-- `for x in l: emit (f x)` — the table-row loops of `create_pdf`. -/
def concatMap {α β : Type} (f : α → List β) : List α → List β
  | [] => []
  | x :: xs => f x ++ concatMap f xs

/-- The four cells written for one stakeholder (trial.py lines 530-534). -/
def stakeholderRow (s : Stakeholder) : List PdfOp :=
  [PdfOp.cell 40 7 (clean_text (s.role.take 20)) 1 0,
   PdfOp.cell 50 7 (clean_text (s.name.take 25)) 1 0,
   PdfOp.cell 50 7 (clean_text (s.title.take 25)) 1 0,
   PdfOp.cell 50 7 (clean_text (s.email.take 25)) 1 1]

/-- The three cells written for one timeline row (trial.py lines 590-593). -/
def timelineRow (t : TimelineRow) : List PdfOp :=
  [PdfOp.cell 40 7 (clean_text (t.phase.take 20)) 1 0,
   PdfOp.cell 110 7 (clean_text (t.task.take 60)) 1 0,
   PdfOp.cell 40 7 (clean_text (t.weeks.take 20)) 1 1]

/-- `', '.join(l)`. -/
def commaJoin (l : List (List Char)) : List Char :=
  List.intercalate ((", ").data) l

/-- `create_pdf` (trial.py lines 505-610) as the ordered list of drawing
calls it performs. -/
def create_pdf (inp : SowInputs) : List PdfOp :=
  [PdfOp.add_page,
   PdfOp.chapter_title ("2. PROJECT OVERVIEW").data,
   PdfOp.set_font ("Arial").data ("B").data 11,
   PdfOp.cell 0 8 ("2.1 OBJECTIVE").data 0 1,
   PdfOp.set_font ("Arial").data ("").data 10,
   PdfOp.multi_cell 0 5 (clean_text inp.final_objective),
   PdfOp.line_break 5,
   PdfOp.set_font ("Arial").data ("B").data 11,
   PdfOp.cell 0 8 ("2.2 PROJECT SPONSOR(S) / STAKEHOLDER(S)").data 0 1,
   PdfOp.set_font ("Arial").data ("B").data 10,
   PdfOp.cell 40 7 ("Role").data 1 0,
   PdfOp.cell 50 7 ("Name").data 1 0,
   PdfOp.cell 50 7 ("Title").data 1 0,
   PdfOp.cell 50 7 ("Email").data 1 1,
   PdfOp.set_font ("Arial").data ("").data 9]
  ++ concatMap stakeholderRow inp.updated_stakeholders
  ++ [PdfOp.line_break 5,
      PdfOp.chapter_title ("2.3 ASSUMPTIONS & DEPENDENCIES").data,
      PdfOp.set_font ("Arial").data ("B").data 10,
      PdfOp.cell 0 6 ("Dependencies:").data 0 1,
      PdfOp.set_font ("Arial").data ("").data 10,
      PdfOp.multi_cell 0 5 (clean_text inp.deps_text),
      PdfOp.line_break 3,
      PdfOp.set_font ("Arial").data ("B").data 10,
      PdfOp.cell 0 6 ("Assumptions:").data 0 1,
      PdfOp.set_font ("Arial").data ("").data 10,
      PdfOp.multi_cell 0 5 (clean_text inp.assump_text),
      PdfOp.line_break 5,
      PdfOp.chapter_title ("2.4 PoC SUCCESS CRITERIA").data,
      PdfOp.multi_cell 0 5 (clean_text inp.final_sc_text),
      PdfOp.line_break 5,
      PdfOp.chapter_title ("3. SCOPE OF WORK - TECHNICAL PROJECT PLAN").data,
      PdfOp.set_font ("Arial").data ("B").data 10,
      PdfOp.cell 0 6 ("Phase 1: Infrastructure Setup").data 0 1,
      PdfOp.set_font ("Arial").data ("").data 10,
      PdfOp.multi_cell 0 5 (clean_text inp.p1),
      PdfOp.line_break 2,
      PdfOp.set_font ("Arial").data ("B").data 10,
      PdfOp.cell 0 6 ("Phase 2: Core Workflows").data 0 1,
      PdfOp.set_font ("Arial").data ("").data 10,
      PdfOp.multi_cell 0 5 (clean_text inp.p2),
      PdfOp.line_break 2,
      PdfOp.set_font ("Arial").data ("B").data 10,
      PdfOp.cell 0 6 ("Phase 3: Backend Components").data 0 1,
      PdfOp.set_font ("Arial").data ("").data 10,
      PdfOp.multi_cell 0 5 (clean_text inp.p3),
      PdfOp.line_break 2,
      PdfOp.set_font ("Arial").data ("B").data 10,
      PdfOp.cell 0 6 ("Phase 4: Feedback & Testing").data 0 1,
      PdfOp.set_font ("Arial").data ("").data 10,
      PdfOp.multi_cell 0 5 (clean_text inp.p4),
      PdfOp.line_break 5,
      PdfOp.set_font ("Arial").data ("B").data 10,
      PdfOp.cell 0 8 ("Development Timelines").data 0 1,
      PdfOp.cell 40 7 ("Phase").data 1 0,
      PdfOp.cell 110 7 ("Task").data 1 0,
      PdfOp.cell 40 7 ("Weeks").data 1 1,
      PdfOp.set_font ("Arial").data ("").data 9]
  ++ concatMap timelineRow inp.final_timeline
  ++ [PdfOp.line_break 5,
      PdfOp.chapter_title ("4. SOLUTION ARCHITECTURE").data,
      PdfOp.set_font ("Arial").data ("").data 10,
      PdfOp.cell 0 6 (("Compute: ").data ++ clean_text inp.compute) 0 1,
      PdfOp.cell 0 6 (("Storage: ").data ++ clean_text (commaJoin inp.storage)) 0 1,
      PdfOp.cell 0 6 (("ML Services: ").data ++ clean_text (commaJoin inp.ml_services)) 0 1,
      PdfOp.cell 0 6 (("UI Layer: ").data ++ clean_text inp.ui_layer) 0 1,
      PdfOp.line_break 5,
      PdfOp.chapter_title ("5. RESOURCES & COST ESTIMATES").data,
      PdfOp.cell 0 6 (("Cost Ownership: ").data ++ clean_text inp.ownership) 0 1,
      PdfOp.cell 0 6 (("Usage Estimates: ").data ++ (toString inp.n_users).data
        ++ (" users, ").data ++ (toString inp.n_reqs).data
        ++ (" requests/day").data) 0 1]

/-- Select a chapter title. -/
def chapterTitleSel : PdfOp → Option (List Char)
  | PdfOp.chapter_title t => some t
  | _ => none

/-- Select a full-width borderless heading/field line
(`pdf.cell(0, h, txt, 0, 1)`).  Table cells have a border and a fixed
width, so they are excluded. -/
def headerCellSel : PdfOp → Option (List Char)
  | PdfOp.cell 0 _ t 0 1 => some t
  | _ => none

/-- The chapter titles of a drawing-call list, in order. -/
def chapterTitles (ops : List PdfOp) : List (List Char) :=
  ops.filterMap chapterTitleSel

/-- The full-width borderless heading/field lines of a drawing-call list,
in order. -/
def headerCells (ops : List PdfOp) : List (List Char) :=
  ops.filterMap headerCellSel

/-- All widgets empty: every text blank, no stakeholders, no timeline rows. -/
def emptyInputs : SowInputs :=
  ⟨[], [], [], [], [], [], [], [], [], [], [], [], [], [], [], 0, 0⟩

/-- A stakeholder whose fields are longer than the table-cell cut-offs. -/
def sampleStakeholder : Stakeholder :=
  ⟨("Chief Executive Sponsor For All Regions").data,
   ("An Exceedingly Long Stakeholder Name").data,
   ("Senior Vice President Of Engineering").data,
   ("a.very.long.address@example-corporation.com").data⟩

/-- A timeline row whose fields are longer than the table-cell cut-offs. -/
def sampleTimelineRow : TimelineRow :=
  ⟨("Phase One Infrastructure Setup").data,
   ("Provision all accounts, networking, storage buckets, pipelines and monitoring dashboards").data,
   ("Week one through week four").data⟩

/-- Inputs with one oversized stakeholder and one oversized timeline row. -/
def sampleInputs : SowInputs :=
  ⟨[], [sampleStakeholder], [], [], [], [], [], [], [], [sampleTimelineRow],
   [], [], [], [], [], 0, 0⟩

/-!  ## Retry-loop lemmas -/

/-- A non-200 status is not a success. -/
theorem isSuccess_false_of_ne {α : Type} {c : Nat} {b : Option α} (h : c ≠ 200) :
    isSuccess (HttpEvent.response c b) = false := by
  simp [isSuccess, h]

/-- A successful attempt stops the loop at once, with no sleep. -/
theorem retryAux_of_success {α : Type} (env : Nat → HttpEvent α) (i : Nat) (rest : List Nat)
    (h : isSuccess (env i) = true) :
    ∃ v, retryAux env (i :: rest) = ⟨some v, 1, []⟩ := by
  cases henv : env i with
  | response code body =>
    rw [henv] at h
    simp only [isSuccess, Bool.and_eq_true, beq_iff_eq, Option.isSome_iff_exists] at h
    obtain ⟨hc, v, hv⟩ := h
    subst hc
    subst hv
    exact ⟨v, by simp [retryAux, henv]⟩
  | exn =>
    rw [henv] at h
    simp [isSuccess] at h

/-- A failed attempt sleeps `2 ^ i` and continues with the remaining indices. -/
theorem retryAux_of_fail {α : Type} (env : Nat → HttpEvent α) (i : Nat) (rest : List Nat)
    (h : isSuccess (env i) = false) :
    retryAux env (i :: rest) =
      ⟨(retryAux env rest).result, (retryAux env rest).attempts + 1,
        2 ^ i :: (retryAux env rest).sleeps⟩ := by
  cases henv : env i with
  | response code body =>
    rw [henv] at h
    cases body with
    | some v =>
      simp only [isSuccess, Option.isSome_some, Bool.and_true, beq_eq_false_iff_ne] at h
      simp [retryAux, henv, h]
    | none =>
      by_cases hc : code = 200
      · subst hc
        simp [retryAux, henv]
      · simp [retryAux, henv, hc]
  | exn =>
    simp [retryAux, henv]

/-- If every listed attempt fails, the loop runs them all, sleeping `2 ^ i`
after each, and falls through with `none`. -/
theorem retryAux_all_fail {α : Type} (env : Nat → HttpEvent α) (l : List Nat)
    (h : ∀ i ∈ l, isSuccess (env i) = false) :
    retryAux env l = ⟨none, l.length, l.map (fun i => 2 ^ i)⟩ := by
  induction l with
  | nil => simp [retryAux]
  | cons i rest ih =>
    rw [retryAux_of_fail env i rest (h i (List.mem_cons_self i rest)),
        ih (fun j hj => h j (List.mem_cons_of_mem i hj))]
    simp

/-- The loop never makes more attempts than it has indices. -/
theorem retryAux_attempts_le {α : Type} (env : Nat → HttpEvent α) (l : List Nat) :
    (retryAux env l).attempts ≤ l.length := by
  induction l with
  | nil => simp [retryAux]
  | cons i rest ih =>
    by_cases hs : isSuccess (env i) = true
    · obtain ⟨v, hv⟩ := retryAux_of_success env i rest hs
      rw [hv]
      simp
    · rw [retryAux_of_fail env i rest (by simpa using hs)]
      simpa using Nat.succ_le_succ ih

/-- The delays slept are exactly `2 ^ i` for the initial run of failed
attempts. -/
theorem retryAux_sleeps {α : Type} (env : Nat → HttpEvent α) (l : List Nat) :
    (retryAux env l).sleeps
      = (l.takeWhile (fun i => ! isSuccess (env i))).map (fun i => 2 ^ i) := by
  induction l with
  | nil => simp [retryAux]
  | cons i rest ih =>
    by_cases hs : isSuccess (env i) = true
    · obtain ⟨v, hv⟩ := retryAux_of_success env i rest hs
      rw [hv]
      simp [List.takeWhile_cons, hs]
    · have hs' : isSuccess (env i) = false := by simpa using hs
      rw [retryAux_of_fail env i rest hs']
      simp [List.takeWhile_cons, hs', ih]

/-- On total failure `call_gemini_json` makes all 5 attempts, sleeps
1, 2, 4, 8, 16 seconds, and returns `None`. -/
theorem call_gemini_json_all_fail {α : Type} (env : Nat → HttpEvent α)
    (h : ∀ i < 5, isSuccess (env i) = false) :
    call_gemini_json env = ⟨none, 5, [1, 2, 4, 8, 16]⟩ := by
  have h' : ∀ i ∈ List.range 5, isSuccess (env i) = false :=
    fun i hi => h i (List.mem_range.mp hi)
  show retryAux env (List.range 5) = _
  rw [retryAux_all_fail env _ h']
  rfl

/-- On total failure `call_gemini_text` makes all 5 attempts, sleeps
1, 2, 4, 8, 16 seconds, and returns the busy message. -/
theorem call_gemini_text_all_fail (env : Nat → HttpEvent String)
    (h : ∀ i < 5, isSuccess (env i) = false) :
    call_gemini_text env = ⟨busyMessage, 5, [1, 2, 4, 8, 16]⟩ := by
  have h' : ∀ i ∈ List.range 5, isSuccess (env i) = false :=
    fun i hi => h i (List.mem_range.mp hi)
  show (⟨(retryAux env (List.range 5)).result.getD busyMessage,
          (retryAux env (List.range 5)).attempts,
          (retryAux env (List.range 5)).sleeps⟩ : RunResult String) = _
  rw [retryAux_all_fail env _ h']
  rfl

/-- The delays of a 5-attempt run always form an initial segment of
`[1, 2, 4, 8, 16]`. -/
theorem retry_sleeps_initial {α : Type} (env : Nat → HttpEvent α) :
    (retryAux env (List.range 5)).sleeps <+: [1, 2, 4, 8, 16] := by
  rw [retryAux_sleeps]
  have h1 : (List.range 5).takeWhile (fun i => ! isSuccess (env i)) <+: List.range 5 :=
    List.takeWhile_prefix _
  have h2 := h1.map (fun i => 2 ^ i)
  have h3 : (List.range 5).map (fun i => 2 ^ i) = [1, 2, 4, 8, 16] := by decide
  rw [h3] at h2
  exact h2

/-!  ## Claims about the retry wrappers -/

/-- C1 (counterexample): on a terminal 400 (malformed request) response the
code does NOT return immediately — both wrappers still make all 5 attempts,
so the claimed retryable/terminal classification is absent. -/
theorem C1_counterexample :
    (call_gemini_json (fun _ => HttpEvent.response 400 (none : Option Unit))).attempts = 5 ∧
    ¬ (call_gemini_json (fun _ => HttpEvent.response 400 (none : Option Unit))).attempts ≤ 1 ∧
    (call_gemini_text (fun _ => HttpEvent.response 400 none)).attempts = 5 := by
  decide

/-- C1 (amended): the wrappers do not classify statuses at all.  Every
non-200 response — including terminal ones such as 400, 401 or 403 —
triggers a sleep and a further attempt, and after 5 such responses the
wrappers return their generic fallback (`None` / the busy message) rather
than a status-specific terminal error. -/
theorem C1_no_terminal_classification {α : Type} (envj : Nat → HttpEvent α)
    (envt : Nat → HttpEvent String)
    (hj : ∀ i < 5, ∃ c b, envj i = HttpEvent.response c b ∧ c ≠ 200)
    (ht : ∀ i < 5, ∃ c b, envt i = HttpEvent.response c b ∧ c ≠ 200) :
    (call_gemini_json envj).attempts = 5 ∧ (call_gemini_json envj).result = none ∧
    (call_gemini_text envt).attempts = 5 ∧ (call_gemini_text envt).result = busyMessage := by
  have hj' : ∀ i < 5, isSuccess (envj i) = false := by
    intro i hi
    obtain ⟨c, b, heq, hc⟩ := hj i hi
    rw [heq]
    exact isSuccess_false_of_ne hc
  have ht' : ∀ i < 5, isSuccess (envt i) = false := by
    intro i hi
    obtain ⟨c, b, heq, hc⟩ := ht i hi
    rw [heq]
    exact isSuccess_false_of_ne hc
  rw [call_gemini_json_all_fail envj hj', call_gemini_text_all_fail envt ht']
  exact ⟨rfl, rfl, rfl, rfl⟩

/-- Witness for C1 at the constant-400 environment. -/
theorem C1_no_terminal_classification_witness :
    (call_gemini_json (fun _ => HttpEvent.response 402 (none : Option Unit))).attempts = 5 ∧
    (call_gemini_json (fun _ => HttpEvent.response 402 (none : Option Unit))).result = none ∧
    (call_gemini_text (fun _ => HttpEvent.response 402 none)).attempts = 5 ∧
    (call_gemini_text (fun _ => HttpEvent.response 402 none)).result = busyMessage :=
  C1_no_terminal_classification
    (fun _ => HttpEvent.response 402 (none : Option Unit))
    (fun _ => HttpEvent.response 402 none)
    (fun _ _ => ⟨402, none, rfl, by decide⟩)
    (fun _ _ => ⟨402, none, rfl, by decide⟩)

/-- C2: when all 5 attempts fail, `call_gemini_json` returns `None` and
`call_gemini_text` returns the string
"AI model busy. Please try clicking the button again.", each after exactly
its 5 attempts; neither raises. -/
theorem C2_exhaustion_returns_error {α : Type} (envj : Nat → HttpEvent α)
    (envt : Nat → HttpEvent String)
    (hj : ∀ i < 5, isSuccess (envj i) = false)
    (ht : ∀ i < 5, isSuccess (envt i) = false) :
    (call_gemini_json envj).result = none ∧ (call_gemini_json envj).attempts = 5 ∧
    (call_gemini_text envt).result = busyMessage ∧
    (call_gemini_text envt).attempts = 5 := by
  rw [call_gemini_json_all_fail envj hj, call_gemini_text_all_fail envt ht]
  exact ⟨rfl, rfl, rfl, rfl⟩

/-- Witness for C2 at an environment where every attempt raises. -/
theorem C2_exhaustion_returns_error_witness :
    (call_gemini_json ((fun _ => HttpEvent.exn) : Nat → HttpEvent Unit)).result = none ∧
    (call_gemini_json ((fun _ => HttpEvent.exn) : Nat → HttpEvent Unit)).attempts = 5 ∧
    (call_gemini_text (fun _ => HttpEvent.exn)).result = busyMessage ∧
    (call_gemini_text (fun _ => HttpEvent.exn)).attempts = 5 :=
  C2_exhaustion_returns_error
    ((fun _ => HttpEvent.exn) : Nat → HttpEvent Unit)
    (fun _ => HttpEvent.exn)
    (by decide) (by decide)

/-- C5: the retry loops are bounded — for every environment both wrappers
make at most 5 network attempts and return a value. -/
theorem C5_attempts_bounded {α : Type} (envj : Nat → HttpEvent α)
    (envt : Nat → HttpEvent String) :
    (call_gemini_json envj).attempts ≤ 5 ∧ (call_gemini_text envt).attempts ≤ 5 := by
  constructor
  · show (retryAux envj (List.range 5)).attempts ≤ 5
    have h := retryAux_attempts_le envj (List.range 5)
    simpa using h
  · show (retryAux envt (List.range 5)).attempts ≤ 5
    have h := retryAux_attempts_le envt (List.range 5)
    simpa using h

/-- C6: the delay slept after failed attempt `i` is `2 ^ i` seconds (the
delays are the `2 ^ i` for the initial run of failed attempts), the slept
delays always form a strictly increasing sequence, and when every attempt
fails the sequence is exactly 1, 2, 4, 8, 16. -/
theorem C6_backoff_grows {α : Type} (envj : Nat → HttpEvent α)
    (envt : Nat → HttpEvent String) :
    (call_gemini_json envj).sleeps
        = ((List.range 5).takeWhile (fun i => ! isSuccess (envj i))).map (fun i => 2 ^ i) ∧
    (call_gemini_text envt).sleeps
        = ((List.range 5).takeWhile (fun i => ! isSuccess (envt i))).map (fun i => 2 ^ i) ∧
    List.Chain' (· < ·) (call_gemini_json envj).sleeps ∧
    List.Chain' (· < ·) (call_gemini_text envt).sleeps ∧
    ((∀ i < 5, isSuccess (envj i) = false) →
      (call_gemini_json envj).sleeps = [1, 2, 4, 8, 16]) := by
  have hchain : List.Chain' (· < ·) ([1, 2, 4, 8, 16] : List Nat) := by
    norm_num [List.chain'_cons]
  refine ⟨?_, ?_, ?_, ?_, ?_⟩
  · exact retryAux_sleeps envj (List.range 5)
  · exact retryAux_sleeps envt (List.range 5)
  · exact hchain.sublist (retry_sleeps_initial envj).sublist
  · exact hchain.sublist (retry_sleeps_initial envt).sublist
  · intro h
    rw [call_gemini_json_all_fail envj h]

/-- Witness for C6 at the all-exception environment. -/
theorem C6_backoff_grows_witness :
    (call_gemini_json ((fun _ => HttpEvent.exn) : Nat → HttpEvent Unit)).sleeps
        = [1, 2, 4, 8, 16] ∧
    List.Chain' (· < ·)
      (call_gemini_json ((fun _ => HttpEvent.exn) : Nat → HttpEvent Unit)).sleeps :=
  ⟨(C6_backoff_grows ((fun _ => HttpEvent.exn) : Nat → HttpEvent Unit)
      (fun _ => HttpEvent.exn)).2.2.2.2 (by decide),
   (C6_backoff_grows ((fun _ => HttpEvent.exn) : Nat → HttpEvent Unit)
      (fun _ => HttpEvent.exn)).2.2.1⟩

/-!  ## `clean_text` lemmas -/

/-- Every character of a `clean_text` output is latin-1 encodable. -/
theorem clean_text_mem_le (t : List Char) : ∀ c ∈ clean_text t, c.toNat ≤ 255 := by
  intro c hc
  simp only [clean_text, latin1Clamp, List.mem_map] at hc
  obtain ⟨d, _, rfl⟩ := hc
  by_cases h : d.toNat ≤ 255
  · simp [h]
  · simp only [if_neg h]
    decide

/-- The latin-1 clamp is the identity on latin-1 encodable text. -/
theorem latin1Clamp_eq_self (l : List Char) (h : ∀ c ∈ l, c.toNat ≤ 255) :
    latin1Clamp l = l := by
  induction l with
  | nil => rfl
  | cons c rest ih =>
    have h1 : c.toNat ≤ 255 := h c (List.mem_cons_self c rest)
    have h2 := ih (fun d hd => h d (List.mem_cons_of_mem c hd))
    simp only [latin1Clamp, List.map_cons, if_pos h1] at h2 ⊢
    rw [h2]

/-- A replacement whose pattern starts with a character above U+00FF never
fires on latin-1 encodable text. -/
theorem pyReplaceAux_eq_self (p0 : Char) (pr rep : List Char) (hp : 255 < p0.toNat)
    (fuel : Nat) : ∀ l : List Char, (∀ c ∈ l, c.toNat ≤ 255) →
    pyReplaceAux (p0 :: pr) rep fuel l = l := by
  induction fuel with
  | zero =>
    intro l _
    cases l <;> rfl
  | succ fuel ih =>
    intro l h
    cases l with
    | nil => rfl
    | cons c rest =>
      have hc : c.toNat ≤ 255 := h c (List.mem_cons_self c rest)
      have hne0 : p0 ≠ c := by
        intro heq
        rw [heq] at hp
        omega
      have hne : ((p0 :: pr).isPrefixOf (c :: rest)) = false := by
        simp [List.isPrefixOf, hne0]
      simp only [pyReplaceAux, hne, Bool.false_eq_true, if_false]
      rw [ih rest (fun d hd => h d (List.mem_cons_of_mem c hd))]

/-- `pyReplace` version of `pyReplaceAux_eq_self`. -/
theorem pyReplace_eq_self (p0 : Char) (pr rep : List Char) (hp : 255 < p0.toNat)
    (l : List Char) (h : ∀ c ∈ l, c.toNat ≤ 255) :
    pyReplace (p0 :: pr) rep l = l :=
  pyReplaceAux_eq_self p0 pr rep hp l.length l h

/-- The whole replacement table of `clean_text` is the identity on latin-1
encodable text: every pattern starts above U+00FF. -/
theorem foldl_replacements_eq_self (l : List Char) (h : ∀ c ∈ l, c.toNat ≤ 255) :
    replacements.foldl (fun acc kv => pyReplace kv.1 kv.2 acc) l = l := by
  simp only [replacements, List.foldl_cons, List.foldl_nil]
  rw [pyReplace_eq_self (Char.ofNat 0x2013) [] [Char.ofNat 0x2d] (by decide) l h,
      pyReplace_eq_self (Char.ofNat 0x2014) [] [Char.ofNat 0x2d] (by decide) l h,
      pyReplace_eq_self (Char.ofNat 0x2018) [] [Char.ofNat 0x27] (by decide) l h,
      pyReplace_eq_self (Char.ofNat 0x2019) [] [Char.ofNat 0x27] (by decide) l h,
      pyReplace_eq_self (Char.ofNat 0x201c) [] [Char.ofNat 0x22] (by decide) l h,
      pyReplace_eq_self (Char.ofNat 0x201d) [] [Char.ofNat 0x22] (by decide) l h,
      pyReplace_eq_self (Char.ofNat 0x201a) [Char.ofNat 0xf3, Char.ofNat 0xe8]
        [Char.ofNat 0x2d] (by decide) l h,
      pyReplace_eq_self (Char.ofNat 0x201a) [Char.ofNat 0xc4, Char.ofNat 0xa2]
        [Char.ofNat 0x2d] (by decide) l h]

/-- C8: for every input string, every character of `clean_text`'s output is
latin-1 encodable (code point at most 255), so the later
`.encode('latin-1')` of the assembled PDF cannot fail on text that passed
through `clean_text`. -/
theorem C8_clean_text_latin1_safe (t : List Char) (c : Char) (hc : c ∈ clean_text t) :
    c.toNat ≤ 255 :=
  clean_text_mem_le t c hc

/-- Witness for C8: the letter A survives `clean_text` of "A–" and is
latin-1 encodable. -/
theorem C8_clean_text_latin1_safe_witness :
    Char.ofNat 0x41 ∈ clean_text [Char.ofNat 0x41, Char.ofNat 0x2013] ∧
    (Char.ofNat 0x41).toNat ≤ 255 :=
  ⟨by decide,
   C8_clean_text_latin1_safe [Char.ofNat 0x41, Char.ofNat 0x2013] (Char.ofNat 0x41)
     (by decide)⟩

/-- C9: `clean_text` is idempotent — its output contains no character any
replacement pattern could match (all patterns start above U+00FF) and no
character the latin-1 clamp would change. -/
theorem C9_clean_text_idempotent (t : List Char) :
    clean_text (clean_text t) = clean_text t := by
  have hle : ∀ c ∈ clean_text t, c.toNat ≤ 255 := clean_text_mem_le t
  calc clean_text (clean_text t)
      = latin1Clamp (replacements.foldl
          (fun acc kv => pyReplace kv.1 kv.2 acc) (clean_text t)) := rfl
    _ = latin1Clamp (clean_text t) := by
          rw [foldl_replacements_eq_self (clean_text t) hle]
    _ = clean_text t := latin1Clamp_eq_self (clean_text t) hle

/-!  ## `create_pdf` lemmas -/

/-- Membership in a row loop. -/
theorem mem_concatMap {α β : Type} (f : α → List β) (l : List α) (b : β) :
    b ∈ concatMap f l ↔ ∃ a ∈ l, b ∈ f a := by
  induction l with
  | nil => simp [concatMap]
  | cons x xs ih => simp [concatMap, ih]

/-- Stakeholder rows contain no chapter title. -/
theorem chapterTitleSel_stakeholder_rows (l : List Stakeholder) :
    (concatMap stakeholderRow l).filterMap chapterTitleSel = [] := by
  induction l with
  | nil => rfl
  | cons s rest ih =>
    simp only [concatMap, List.filterMap_append, ih, List.append_nil]
    rfl

/-- Timeline rows contain no chapter title. -/
theorem chapterTitleSel_timeline_rows (l : List TimelineRow) :
    (concatMap timelineRow l).filterMap chapterTitleSel = [] := by
  induction l with
  | nil => rfl
  | cons t rest ih =>
    simp only [concatMap, List.filterMap_append, ih, List.append_nil]
    rfl

/-- Stakeholder rows contain no full-width borderless line. -/
theorem headerCellSel_stakeholder_rows (l : List Stakeholder) :
    (concatMap stakeholderRow l).filterMap headerCellSel = [] := by
  induction l with
  | nil => rfl
  | cons s rest ih =>
    simp only [concatMap, List.filterMap_append, ih, List.append_nil]
    rfl

/-- Timeline rows contain no full-width borderless line. -/
theorem headerCellSel_timeline_rows (l : List TimelineRow) :
    (concatMap timelineRow l).filterMap headerCellSel = [] := by
  induction l with
  | nil => rfl
  | cons t rest ih =>
    simp only [concatMap, List.filterMap_append, ih, List.append_nil]
    rfl

/-- C4: template assembly preserves a fixed order.  For every input, the
chapter titles of the produced document are exactly the six section titles
in their fixed order, and the full-width heading/field lines are exactly
the fixed sub-headings (2.1 Objective, 2.2 Stakeholders, Dependencies,
Assumptions, Scope phases 1-4, Timeline, Architecture fields, Resources
fields) in their fixed order, independent of the input values. -/
theorem C4_fixed_order (inp : SowInputs) :
    chapterTitles (create_pdf inp) =
      [("2. PROJECT OVERVIEW").data,
       ("2.3 ASSUMPTIONS & DEPENDENCIES").data,
       ("2.4 PoC SUCCESS CRITERIA").data,
       ("3. SCOPE OF WORK - TECHNICAL PROJECT PLAN").data,
       ("4. SOLUTION ARCHITECTURE").data,
       ("5. RESOURCES & COST ESTIMATES").data] ∧
    headerCells (create_pdf inp) =
      [("2.1 OBJECTIVE").data,
       ("2.2 PROJECT SPONSOR(S) / STAKEHOLDER(S)").data,
       ("Dependencies:").data,
       ("Assumptions:").data,
       ("Phase 1: Infrastructure Setup").data,
       ("Phase 2: Core Workflows").data,
       ("Phase 3: Backend Components").data,
       ("Phase 4: Feedback & Testing").data,
       ("Development Timelines").data,
       ("Compute: ").data ++ clean_text inp.compute,
       ("Storage: ").data ++ clean_text (commaJoin inp.storage),
       ("ML Services: ").data ++ clean_text (commaJoin inp.ml_services),
       ("UI Layer: ").data ++ clean_text inp.ui_layer,
       ("Cost Ownership: ").data ++ clean_text inp.ownership,
       ("Usage Estimates: ").data ++ (toString inp.n_users).data ++ (" users, ").data
         ++ (toString inp.n_reqs).data ++ (" requests/day").data] := by
  constructor
  · simp only [chapterTitles, create_pdf, List.filterMap_append,
      chapterTitleSel_stakeholder_rows, chapterTitleSel_timeline_rows,
      List.append_nil, List.nil_append]
    rfl
  · simp only [headerCells, create_pdf, List.filterMap_append,
      headerCellSel_stakeholder_rows, headerCellSel_timeline_rows,
      List.append_nil, List.nil_append]
    simp only [List.filterMap_cons, chapterTitleSel, headerCellSel]
    rfl

/-- C3 (counterexample): with every widget empty, the document still opens
with the 2.1 OBJECTIVE heading followed immediately by an empty body, so a
section whose content is the empty string is NOT omitted. -/
theorem C3_counterexample :
    (create_pdf emptyInputs).take 6 =
      [PdfOp.add_page,
       PdfOp.chapter_title ("2. PROJECT OVERVIEW").data,
       PdfOp.set_font ("Arial").data ("B").data 11,
       PdfOp.cell 0 8 ("2.1 OBJECTIVE").data 0 1,
       PdfOp.set_font ("Arial").data ("").data 10,
       PdfOp.multi_cell 0 5 []] := by
  decide

/-- C3 (amended): template assembly does NOT skip empty sections —
`create_pdf` writes every heading unconditionally, and the body written
under a heading is `clean_text` of the section's content even when that
content is empty.  Shown here for the 2.1 Objective and 2.4 Success
Criteria sections. -/
theorem C3_no_skipping (inp : SowInputs) :
    PdfOp.cell 0 8 ("2.1 OBJECTIVE").data 0 1 ∈ create_pdf inp ∧
    PdfOp.multi_cell 0 5 (clean_text inp.final_objective) ∈ create_pdf inp ∧
    PdfOp.chapter_title ("2.4 PoC SUCCESS CRITERIA").data ∈ create_pdf inp ∧
    PdfOp.multi_cell 0 5 (clean_text inp.final_sc_text) ∈ create_pdf inp := by
  refine ⟨?_, ?_, ?_, ?_⟩ <;> simp [create_pdf, List.mem_append]

/-- C7: document assembly is deterministic — `create_pdf` is a pure
function of the section texts, stakeholder rows, timeline rows and
architecture selections, so equal inputs produce identical documents. -/
theorem C7_deterministic (a b : SowInputs) (h : a = b) :
    create_pdf a = create_pdf b :=
  congrArg create_pdf h

/-- Witness for C7 at the empty inputs. -/
theorem C7_deterministic_witness : create_pdf emptyInputs = create_pdf emptyInputs :=
  C7_deterministic emptyInputs emptyInputs rfl

/-!  ## Length lemmas for the truncation claim -/

/-- `isPrefixOf` implies the pattern is no longer than the text. -/
theorem isPrefixOf_length_le : ∀ p l : List Char, p.isPrefixOf l = true → p.length ≤ l.length
  | [], _, _ => Nat.zero_le _
  | a :: as, [], h => by simp [List.isPrefixOf] at h
  | a :: as, b :: bs, h => by
    simp only [List.isPrefixOf, Bool.and_eq_true] at h
    exact Nat.succ_le_succ (isPrefixOf_length_le as bs h.2)

/-- Replacement by a no-longer string never lengthens the text. -/
theorem pyReplaceAux_length_le (pat rep : List Char) (hrep : rep.length ≤ pat.length) :
    ∀ (fuel : Nat) (l : List Char), (pyReplaceAux pat rep fuel l).length ≤ l.length := by
  intro fuel
  induction fuel with
  | zero =>
    intro l
    cases l <;> simp [pyReplaceAux]
  | succ fuel ih =>
    intro l
    cases l with
    | nil => simp [pyReplaceAux]
    | cons c rest =>
      by_cases hpre : pat.isPrefixOf (c :: rest) = true
      · have hlen : pat.length ≤ rest.length + 1 := by
          have h1 := isPrefixOf_length_le pat (c :: rest) hpre
          simpa using h1
        simp only [pyReplaceAux, hpre, if_true, List.length_append, List.length_cons]
        have h2 := ih (List.drop (pat.length - 1) rest)
        rw [List.length_drop] at h2
        omega
      · have hpre' : pat.isPrefixOf (c :: rest) = false := Bool.eq_false_iff.mpr hpre
        simp only [pyReplaceAux, hpre', Bool.false_eq_true, if_false, List.length_cons]
        exact Nat.succ_le_succ (ih rest)

/-- `pyReplace` version of the length bound. -/
theorem pyReplace_length_le (pat rep l : List Char) (hrep : rep.length ≤ pat.length) :
    (pyReplace pat rep l).length ≤ l.length :=
  pyReplaceAux_length_le pat rep hrep l.length l

/-- Folding a table of no-lengthening replacements never lengthens. -/
theorem foldl_pyReplace_length_le (ps : List (List Char × List Char))
    (hps : ∀ kv ∈ ps, kv.2.length ≤ kv.1.length) :
    ∀ l : List Char, (ps.foldl (fun acc kv => pyReplace kv.1 kv.2 acc) l).length ≤ l.length := by
  induction ps with
  | nil =>
    intro l
    simp
  | cons kv rest ih =>
    intro l
    have h1 := pyReplace_length_le kv.1 kv.2 l (hps kv (List.mem_cons_self kv rest))
    have h2 := ih (fun p hp => hps p (List.mem_cons_of_mem kv hp)) (pyReplace kv.1 kv.2 l)
    simp only [List.foldl_cons]
    exact le_trans h2 h1

/-- `clean_text` never lengthens its input. -/
theorem clean_text_length_le (t : List Char) : (clean_text t).length ≤ t.length := by
  have h1 := foldl_pyReplace_length_le replacements (by decide) t
  calc (clean_text t).length
      = (replacements.foldl (fun acc kv => pyReplace kv.1 kv.2 acc) t).length := by
        simp [clean_text, latin1Clamp]
    _ ≤ t.length := h1

/-- C10: the PDF export silently truncates table cells.  Each stakeholder
row writes `clean_text` of the role cut to 20 characters and of the name,
title and email cut to 25; each timeline row writes the phase and weeks cut
to 20 and the task cut to 60; the written cell text therefore never exceeds
those widths. -/
theorem C10_truncation (inp : SowInputs) :
    (∀ s ∈ inp.updated_stakeholders,
      PdfOp.cell 40 7 (clean_text (s.role.take 20)) 1 0 ∈ create_pdf inp ∧
      PdfOp.cell 50 7 (clean_text (s.name.take 25)) 1 0 ∈ create_pdf inp ∧
      PdfOp.cell 50 7 (clean_text (s.title.take 25)) 1 0 ∈ create_pdf inp ∧
      PdfOp.cell 50 7 (clean_text (s.email.take 25)) 1 1 ∈ create_pdf inp ∧
      (clean_text (s.role.take 20)).length ≤ 20 ∧
      (clean_text (s.name.take 25)).length ≤ 25 ∧
      (clean_text (s.title.take 25)).length ≤ 25 ∧
      (clean_text (s.email.take 25)).length ≤ 25) ∧
    (∀ t ∈ inp.final_timeline,
      PdfOp.cell 40 7 (clean_text (t.phase.take 20)) 1 0 ∈ create_pdf inp ∧
      PdfOp.cell 110 7 (clean_text (t.task.take 60)) 1 0 ∈ create_pdf inp ∧
      PdfOp.cell 40 7 (clean_text (t.weeks.take 20)) 1 1 ∈ create_pdf inp ∧
      (clean_text (t.phase.take 20)).length ≤ 20 ∧
      (clean_text (t.task.take 60)).length ≤ 60 ∧
      (clean_text (t.weeks.take 20)).length ≤ 20) := by
  have hbound : ∀ (l : List Char) (n : Nat), (clean_text (l.take n)).length ≤ n :=
    fun l n => le_trans (clean_text_length_le (l.take n)) (List.length_take_le n l)
  constructor
  · intro s hs
    have hrow : ∀ x ∈ stakeholderRow s, x ∈ create_pdf inp := by
      intro x hx
      have h1 : x ∈ concatMap stakeholderRow inp.updated_stakeholders :=
        (mem_concatMap stakeholderRow inp.updated_stakeholders x).mpr ⟨s, hs, hx⟩
      simp [create_pdf, List.mem_append, h1]
    exact ⟨hrow _ (by simp [stakeholderRow]), hrow _ (by simp [stakeholderRow]),
           hrow _ (by simp [stakeholderRow]), hrow _ (by simp [stakeholderRow]),
           hbound s.role 20, hbound s.name 25, hbound s.title 25, hbound s.email 25⟩
  · intro t ht
    have hrow : ∀ x ∈ timelineRow t, x ∈ create_pdf inp := by
      intro x hx
      have h1 : x ∈ concatMap timelineRow inp.final_timeline :=
        (mem_concatMap timelineRow inp.final_timeline x).mpr ⟨t, ht, hx⟩
      simp [create_pdf, List.mem_append, h1]
    exact ⟨hrow _ (by simp [timelineRow]), hrow _ (by simp [timelineRow]),
           hrow _ (by simp [timelineRow]),
           hbound t.phase 20, hbound t.task 60, hbound t.weeks 20⟩

/-- Witness for C10 at inputs holding one oversized stakeholder and one
oversized timeline row. -/
theorem C10_truncation_witness :
    (PdfOp.cell 40 7 (clean_text (sampleStakeholder.role.take 20)) 1 0
        ∈ create_pdf sampleInputs ∧
      (clean_text (sampleStakeholder.role.take 20)).length ≤ 20) ∧
    (PdfOp.cell 110 7 (clean_text (sampleTimelineRow.task.take 60)) 1 0
        ∈ create_pdf sampleInputs ∧
      (clean_text (sampleTimelineRow.task.take 60)).length ≤ 60) :=
  ⟨⟨((C10_truncation sampleInputs).1 sampleStakeholder (by decide)).1,
    ((C10_truncation sampleInputs).1 sampleStakeholder (by decide)).2.2.2.2.1⟩,
   ⟨((C10_truncation sampleInputs).2 sampleTimelineRow (by decide)).2.1,
    ((C10_truncation sampleInputs).2 sampleTimelineRow (by decide)).2.2.2.2.1⟩⟩
